import Mathlib

/-!
Verification of the query-resolution pipeline of the chat_bot_chef repository.

The development shallowly embeds the `/api/query` route handler
(`src/app/api/query/route.ts`, function `POST` and its helpers
`formatInstructions` and `generateIntelligentFallbackResponse`), the
Hugging Face embedding client (`lib/embedding-model.ts`, function
`generateEmbeddingWithHuggingFace`) and the catch-all error classifier of
the route.  JavaScript strings are modelled as Lean `String`
(`List Char` underneath); JavaScript `null`/absent text fields are
modelled as the empty string (their truthiness coincides in every use the
route makes), numeric time fields as `Option Nat` (`none` = SQL null),
and vector distances as `Rat`.  External collaborators (the store, the
embedding provider, the generator) are modelled as an environment record
consulted by the pipeline, and the outbound calls the handler makes are
collected in an explicit trace.
-/

namespace ChefBot

/-- Apostrophe character, used to assemble the string literals of the route
that contain one. -/
def apos : String := String.mk [Char.ofNat 39]

/-- Whitespace test modelling the characters relevant to `trim`, `\s` and
`split(/\s+/)` in the source (space, tab, newline, carriage return). -/
def isWsChar (c : Char) : Bool := c = ' ' || c = '\t' || c = '\n' || c = '\r'

/-- Word-character test modelling the regex class `\w` = `[A-Za-z0-9_]`. -/
def isWordChar (c : Char) : Bool := c.isAlphanum || c = '_'

/-- Model of `String.prototype.trim` on the underlying character list. -/
def trimL (l : List Char) : List Char :=
  ((l.dropWhile isWsChar).reverse.dropWhile isWsChar).reverse

/-- Model of `String.prototype.trim`. -/
def jsTrim (s : String) : String := String.mk (trimL s.data)

/-- Model of `String.prototype.toLowerCase` (ASCII, which is all the route
compares). -/
def lowerS (s : String) : String := String.mk (s.data.map Char.toLower)

/-- Substring test on character lists: does `pat` occur contiguously in `s`?
Models `String.prototype.includes` and an unanchored regex literal. -/
def containsSub : List Char → List Char → Bool
  | s, pat =>
    match s with
    | [] => pat.isEmpty
    | _ :: t => pat.isPrefixOf s || containsSub t pat

/-- Model of `String.prototype.includes`. -/
def containsStr (s pat : String) : Bool := containsSub s.data pat.data

/-- Suffix of `s` after the first occurrence of `pat`, if any. -/
def afterFirst : List Char → List Char → Option (List Char)
  | s, pat =>
    match s with
    | [] => if pat.isEmpty then some [] else none
    | _ :: t => if pat.isPrefixOf s then some (s.drop pat.length) else afterFirst t pat

/-- Model of testing the regex `a.*b`: an occurrence of `a` followed
(somewhere later) by an occurrence of `b`.  It suffices to look after the
first occurrence of `a`. -/
def seqContains (s a b : String) : Bool :=
  match afterFirst s.data a.data with
  | some rest => containsSub rest b.data
  | none => false

/-- Is the next character (if any) a non-word character?  Models the regex
boundary `\b` placed after a word. -/
def boundaryAfterL : List Char → Bool
  | [] => true
  | d :: _ => !isWordChar d

/-- Scanner for `hasWord`: `prev` records whether the previous character was
a word character (so that `\b` can be checked before a candidate match). -/
def hwGo (w : List Char) : List Char → Bool → Bool
  | [], _ => false
  | c :: t, prev =>
    (!prev && w.isPrefixOf (c :: t) && boundaryAfterL ((c :: t).drop w.length))
      || hwGo w t (isWordChar c)

/-- Model of testing the regex `\bw\b` for a literal word `w` made of word
characters. -/
def hasWord (s w : String) : Bool := hwGo w.data s.data false

/-- Splitter for `splitWsL`, accumulating the current run of non-whitespace
characters (reversed). -/
def splitWsGo : List Char → List Char → List (List Char)
  | [], acc => if acc.isEmpty then [] else [acc.reverse]
  | c :: t, acc =>
    if isWsChar c then
      if acc.isEmpty then splitWsGo t [] else acc.reverse :: splitWsGo t []
    else splitWsGo t (c :: acc)

/-- Maximal non-whitespace runs of a character list.  Models
`split(/\s+/)` up to the leading empty token JavaScript produces for a
string that starts with whitespace; that token has length 0 and is removed
by every length filter the route applies to the result. -/
def splitWsL (l : List Char) : List (List Char) := splitWsGo l []

/-- Numeric value of a digit run; models `parseInt` on the digits captured
by a regex group. -/
def natOfDigits (l : List Char) : Nat := l.foldl (fun n c => n * 10 + (c.toNat - 48)) 0

/-- Model of `String.prototype.slice(0, n)`. -/
def sliceStr (s : String) (n : Nat) : String := String.mk (s.data.take n)

/-- Model of `replace(/,/g, ", ")`. -/
def replaceCommas (s : String) : String :=
  String.mk (s.data.foldr (fun c acc => if c = ',' then ',' :: ' ' :: acc else c :: acc) [])

/-! ## Data model

A `Recipe` row as the route reads it.  Text fields use `""` for SQL null
(the route only ever tests their JavaScript truthiness, which identifies
the two), numeric minute fields use `Option Nat` (`none` = null; `some 0`
and `none` are also treated alike by the route, which tests truthiness). -/

structure Recipe where
  id : Nat
  title : String
  ingredients : String
  instructions : String
  prepTime : Option Nat
  cookTime : Option Nat
  totalTime : Option Nat
  cuisine : String
deriving DecidableEq

/-- A retrieval result row: the recipe fields plus the numeric `distance`
both search paths attach. -/
structure RRow where
  recipe : Recipe
  distance : Rat
deriving DecidableEq

/-- JavaScript truthiness of a number-or-null field (`null` and `0` are
falsy). -/
def jsTruthyNat : Option Nat → Bool
  | some n => n != 0
  | none => false

/-- Model of `x || 0` on a number-or-null field. -/
def orZero (o : Option Nat) : Nat := o.getD 0

/-- Model of the template interpolation of a number-or-null field against
the default text, as in `r.prepTime || "Not specified"`. -/
def optNatText (o : Option Nat) : String :=
  match o with
  | some n => if n = 0 then "Not specified" else toString n
  | none => "Not specified"

/-! ## Count parsing

`parseRequestedCount` models
`message.match(/\b(\d+)\s*(?:recipe|recipes|dish|dishes)?\b/i)` followed by
`parseInt` on the first capture group, and `parseMaxPrep` models
`message.match(/(\d+)\s*(?:min|minute|mins)\s*(?:prep|preparation)/i)`.
Both scan the message left to right and accept at the first position where
the regex can match, exactly as the JavaScript engine does. -/

def countWords : List String := ["recipe", "recipes", "dish", "dishes"]

/-- Can the part of the count regex after the digits
(`\s*(?:recipe|recipes|dish|dishes)?\b`) match at `rest`?  If the next
character is not a word character (or the string ends) the empty
alternative matches with a boundary; otherwise one of the unit words must
match here, case-insensitively, ending at a boundary. -/
def rcTail (rest : List Char) : Bool :=
  match rest with
  | [] => true
  | d :: _ =>
    if !isWordChar d then true
    else countWords.any (fun w =>
      w.data.isPrefixOf (rest.map Char.toLower) && boundaryAfterL (rest.drop w.length))

/-- Scanner for `parseRequestedCount`; `prev` tracks whether the previous
character is a word character (for the leading `\b`). -/
def rcGo : List Char → Bool → Option Nat
  | [], _ => none
  | c :: t, prev =>
    if c.isDigit && !prev then
      let run := (c :: t).takeWhile Char.isDigit
      let rest := (c :: t).drop run.length
      if rcTail rest then some (natOfDigits run) else rcGo t true
    else rcGo t (isWordChar c)

/-- The requested recipe count parsed from the message (line 328 of the
route). -/
def parseRequestedCount (m : String) : Option Nat := rcGo m.data false

/-- Can the part of the prep-time regex after the digits
(`\s*(?:min|minute|mins)\s*(?:prep|preparation)`) match at `rest`?
`prep` being a prefix of `preparation`, testing `prep` covers both
alternatives. -/
def mpTail (rest : List Char) : Bool :=
  let r2 := rest.dropWhile isWsChar
  ["min", "minute", "mins"].any (fun alt =>
    alt.data.isPrefixOf (r2.map Char.toLower) &&
      "prep".data.isPrefixOf (((r2.drop alt.length).dropWhile isWsChar).map Char.toLower))

/-- Scanner for `parseMaxPrep`.  Attempting only at the first digit of each
digit run is equivalent to the engine trying every start position, because
the remainder after the digits is the same from any digit of the run. -/
def mpGo : List Char → Option Nat
  | [] => none
  | c :: t =>
    if c.isDigit then
      let run := (c :: t).takeWhile Char.isDigit
      let rest := (c :: t).drop run.length
      if mpTail rest then some (natOfDigits run) else mpGo t
    else mpGo t

/-- The maximum preparation time parsed from the message (line 192 of the
route). -/
def parseMaxPrep (m : String) : Option Nat := mpGo m.data

/-! ## formatInstructions

`formatInstructions` tries `JSON.parse` on the instructions text and, when
that yields an array, renders it as a numbered list.  The parser below
models `JSON.parse` restricted to arrays of JSON strings (without `\u`
escapes); any other input is a parse failure, in which case — exactly like
the route, which also falls through for non-array JSON — the text is
returned unchanged. -/

/-- Unescape a character following a backslash in a JSON string. -/
def unescChar (c : Char) : Char :=
  if c = 'n' then '\n' else if c = 't' then '\t' else if c = 'r' then '\r' else c

/-- Parse the remainder of a JSON string (the opening quote already
consumed); returns the string contents and the rest of the input. -/
def pStrGo : List Char → List Char → Option (List Char × List Char)
  | [], _ => none
  | '\"' :: t, acc => some (acc.reverse, t)
  | '\\' :: c :: t, acc => pStrGo t (unescChar c :: acc)
  | '\\' :: [], _ => none
  | c :: t, acc => pStrGo t (c :: acc)

/-- Parse the items of a JSON array of strings after the opening bracket.
`expectValue` is true when a value (or, for an empty array, the closing
bracket) is expected next. -/
def pItems : Nat → List Char → List String → Bool → Option (List String)
  | 0, _, _, _ => none
  | fuel + 1, l, acc, expectValue =>
    match l.dropWhile isWsChar, expectValue with
    | ']' :: rest, true =>
      if acc.isEmpty && (rest.dropWhile isWsChar).isEmpty then some [] else none
    | '\"' :: rest, true =>
      match pStrGo rest [] with
      | some (cs, rest2) => pItems fuel rest2 (String.mk cs :: acc) false
      | none => none
    | ',' :: rest, false => pItems fuel rest acc true
    | ']' :: rest, false =>
      if (rest.dropWhile isWsChar).isEmpty then some acc.reverse else none
    | _, _ => none

/-- Model of `JSON.parse` restricted to arrays of strings. -/
def parseJsonStringArray (s : String) : Option (List String) :=
  match s.data.dropWhile isWsChar with
  | '[' :: rest => pItems (s.data.length + 1) rest [] true
  | _ => none

/-- Model of `formatInstructions` (route lines 11-26): empty (null)
instructions become "Not specified", a JSON step array is rendered as a
numbered list, anything else is returned as is. -/
def formatInstructions (instructions : String) : String :=
  if instructions = "" then "Not specified"
  else
    match parseJsonStringArray instructions with
    | some steps =>
      String.intercalate "\n"
        (steps.enum.map (fun p => toString (p.1 + 1) ++ ". " ++ p.2))
    | none => instructions

/-! ## generateIntelligentFallbackResponse

The template fallback (route lines 31-102).  The three intent tests model
the regexes
`/ingredient|what.*in|what.*need|what.*use/i`,
`/time|how long|duration|minutes|hours/i` and
`/how.*make|how.*cook|how.*prepare|steps|instructions|recipe/i`,
each applied to the lowercased message. -/

def intentIngredients (l : String) : Bool :=
  containsStr l "ingredient" || seqContains l "what" "in" ||
    seqContains l "what" "need" || seqContains l "what" "use"

def intentTime (l : String) : Bool :=
  containsStr l "time" || containsStr l "how long" || containsStr l "duration" ||
    containsStr l "minutes" || containsStr l "hours"

def intentInstructions (l : String) : Bool :=
  seqContains l "how" "make" || seqContains l "how" "cook" ||
    seqContains l "how" "prepare" || containsStr l "steps" ||
    containsStr l "instructions" || containsStr l "recipe"

/-- One recipe entry of the detail listing appended by the `forEach` of the
fallback (route lines 75-99); `idx` is the zero-based index. -/
def fallbackEntry (askIng : Bool) (idx : Nat) (r : RRow) : String :=
  let total := orZero r.recipe.prepTime + orZero r.recipe.cookTime
  toString (idx + 1) ++ ". " ++ r.recipe.title ++ "\n" ++
    (if total > 0 then
      "   Time: " ++ toString total ++ " minutes" ++
        (if jsTruthyNat r.recipe.prepTime && jsTruthyNat r.recipe.cookTime then
          " (" ++ toString (orZero r.recipe.prepTime) ++ " min prep, " ++
            toString (orZero r.recipe.cookTime) ++ " min cook)"
        else "") ++ "\n"
    else "") ++
    (if r.recipe.ingredients ≠ "" && !askIng then
      "   Ingredients: " ++ sliceStr (replaceCommas r.recipe.ingredients) 150 ++
        (if r.recipe.ingredients.length > 150 then "..." else "") ++ "\n"
    else "") ++
    (if r.recipe.cuisine ≠ "" then "   Cuisine: " ++ r.recipe.cuisine ++ "\n" else "") ++
    "\n"

/-- The whole detail listing appended by the `forEach`; it contributes
nothing when the ingredients or instructions intent was detected. -/
def fallbackDetails (askIng askInstr : Bool) (finalResults : List RRow) : String :=
  if askIng || askInstr then ""
  else String.join (finalResults.enum.map (fun p => fallbackEntry askIng p.1 p.2))

/-- The `limit` of the fallback (route line 36); `requestedCount &&
requestedCount > 0` is falsy for `null` and `0`. -/
def fallbackLimit (rc : Option Nat) (n : Nat) : Nat :=
  match rc with
  | some k => if k > 0 then k else min 3 n
  | none => min 3 n

/-- The opening part of the fallback reply, chosen by the intent if-chain
of the route (lines 52-72); `f` is the top candidate. -/
def fallbackBase (message : String) (finalResults : List RRow) (f : RRow) : String :=
  if intentIngredients (lowerS message) && f.recipe.ingredients ≠ "" then
    "Here are the ingredients for " ++ f.recipe.title ++ ":\n\n" ++
      f.recipe.ingredients ++ "\n\n" ++
      (if finalResults.length > 1 then
        "I also found " ++ toString (finalResults.length - 1) ++
          " other similar recipe" ++
          (if finalResults.length > 2 then "s" else "") ++ " you might like.\n"
      else "")
  else if intentTime (lowerS message) &&
      (jsTruthyNat f.recipe.prepTime || jsTruthyNat f.recipe.cookTime) then
    f.recipe.title ++ " takes approximately " ++
      toString (orZero f.recipe.prepTime + orZero f.recipe.cookTime) ++ " minutes" ++
      (if jsTruthyNat f.recipe.prepTime && jsTruthyNat f.recipe.cookTime then
        " (" ++ toString (orZero f.recipe.prepTime) ++ " minutes prep, " ++
          toString (orZero f.recipe.cookTime) ++ " minutes cooking)"
      else "") ++ ".\n\n"
  else if intentInstructions (lowerS message) && f.recipe.instructions ≠ "" then
    "Here" ++ apos ++ "s how to make " ++ f.recipe.title ++ ":\n\n" ++
      sliceStr (formatInstructions f.recipe.instructions) 500 ++
      (if (formatInstructions f.recipe.instructions).length > 500 then "..." else "") ++ "\n\n"
  else
    "I found " ++ toString finalResults.length ++ " great recipe" ++
      (if finalResults.length > 1 then "s" else "") ++ " for you:\n\n"

/-- Model of `generateIntelligentFallbackResponse` (route lines 31-102). -/
def generateIntelligentFallbackResponse (message : String) (results : List RRow)
    (requestedCount : Option Nat) : String :=
  match results.take (fallbackLimit requestedCount results.length) with
  | [] =>
    "I couldn" ++ apos ++ "t find any recipes matching \"" ++ message ++
      "\". Try being more specific or using ingredient names."
  | f :: rest =>
    jsTrim (fallbackBase message (f :: rest) f ++
      fallbackDetails (intentIngredients (lowerS message))
        (intentInstructions (lowerS message)) (f :: rest))

/-! ## Lexical retrieval (route lines 183-257)

The text-search fallback: tokenize the message, filter the store with a
Prisma `OR`-contains query (plus optional prep-time bound), order by
ingredients, take 10, score by weighted term occurrence, order by score
descending (stably) and take 5.  `orderBy: ingredients asc` is modelled as
a stable sort by the codepoint order on the ingredients text. -/

def stopTerms : List String :=
  ["the", "and", "for", "with", "from", "that", "this", "give", "me", "recipes", "recipe"]

/-- Search terms of a message (route lines 186-189): lowercase, split on
whitespace, keep tokens longer than 2 characters that are not stopwords. -/
def searchTermsOf (m : String) : List String :=
  ((splitWsL (lowerS m).data).map String.mk).filter
    (fun t => decide (t.length > 2) && !stopTerms.contains t)

/-- One disjunct of the Prisma `whereClause`: the term occurs
case-insensitively in the ingredients, the title or the instructions. -/
def matchesTerm (r : Recipe) (t : String) : Bool :=
  containsStr (lowerS r.ingredients) t || containsStr (lowerS r.title) t ||
    containsStr (lowerS r.instructions) t

/-- The whole `whereClause` (route lines 197-217): some term matches, and
the optional prep-time bound holds (a Prisma `lte` filter excludes null
fields). -/
def matchesWhere (terms : List String) (maxPrep : Option Nat) (r : Recipe) : Bool :=
  terms.any (matchesTerm r) &&
    (match maxPrep with
     | some mp => match r.prepTime with
       | some p => p ≤ mp
       | none => false
     | none => true)

/-- Relevance score of a recipe (route lines 229-240): +10 per term
occurring in the ingredients, +5 per term occurring in the title; term
occurrences in the instructions are not scored. -/
def lexScore (terms : List String) (r : Recipe) : Nat :=
  terms.foldl (fun s t =>
    let s1 := if containsStr (lowerS r.ingredients) t then s + 10 else s
    if containsStr (lowerS r.title) t then s1 + 5 else s1) 0

/-- Codepoint lexicographic order on character lists, modelling the order
`orderBy: ingredients asc` sorts text by. -/
def lexLeChars : List Char → List Char → Bool
  | [], _ => true
  | _ :: _, [] => false
  | a :: s, b :: t => if a = b then lexLeChars s t else decide (a < b)

/-- The candidates fetched by `findMany` (route lines 219-226): filtered by
the where clause, ordered by ingredients, first 10.  `insertionSort` is a
stable sort, like the database order and `Array.prototype.sort`. -/
def lexCandidates (m : String) (db : List Recipe) : List Recipe :=
  ((db.filter (matchesWhere (searchTermsOf m) (parseMaxPrep m))).insertionSort
    (fun a b => lexLeChars a.ingredients.data b.ingredients.data = true)).take 10

/-- The candidates sorted by relevance score, descending (route line 244);
`Array.prototype.sort` is stable, as is `insertionSort`. -/
def rankedAll (m : String) (db : List Recipe) : List Recipe :=
  (lexCandidates m db).insertionSort
    (fun a b => lexScore (searchTermsOf m) b ≤ lexScore (searchTermsOf m) a)

/-- The top 5 candidates by descending score (route line 245). -/
def rankedTop5 (m : String) (db : List Recipe) : List Recipe :=
  (rankedAll m db).take 5

/-- The rows the text search returns, each with `distance = 1 - score/100`
(route lines 239-246). -/
def textSearchRows (m : String) (db : List Recipe) : List RRow :=
  (rankedTop5 m db).map
    (fun r => ⟨r, 1 - (lexScore (searchTermsOf m) r : Rat) / 100⟩)

/-- The unranked sample returned when no usable search term remains (route
lines 251-255): first 5 recipes by ascending id, each with the flat
distance 0.5. -/
def sampleRows (db : List Recipe) : List RRow :=
  ((db.insertionSort (fun a b => a.id ≤ b.id)).take 5).map (fun r => ⟨r, (1 : Rat) / 2⟩)

/-! ## Intent classifier (route lines 270-273) -/

/-- The fixed greeting set of the regex
`/^(hi|hello|hey|how are you|...)$/i`, all lowercase. -/
def greetSet : List String :=
  ["hi", "hello", "hey", "how are you", "what" ++ apos ++ "s up", "how do you do",
   "good morning", "good afternoon", "good evening", "thanks", "thank you", "bye",
   "goodbye", "who are you", "what are you", "help", "help me"]

/-- The fixed cooking/food keyword set of the regex
`\b(recipe|ingredient|...)\b`. -/
def foodWords : List String :=
  ["recipe", "ingredient", "food", "dish", "cook", "bake", "make", "prepare",
   "cuisine", "meal", "breakfast", "lunch", "dinner", "snack", "dessert",
   "appetizer", "chicken", "beef", "pork", "fish", "vegetable", "pasta", "rice",
   "bread", "soup", "salad", "pizza", "burger", "sandwich", "cake", "cookie",
   "pie", "sauce", "spice", "herb", "flavor", "taste", "kitchen", "cooking",
   "baking", "grill", "fry", "boil", "steam", "roast"]

/-- Does the message contain a cooking/food keyword as a whole word? -/
def containsFoodWord (m : String) : Bool := foodWords.any (hasWord (lowerS m))

/-- Model of `isGeneralQuestion` (route lines 270-273): small talk only
when retrieval produced nothing AND the trimmed message is a greeting, or
is shorter than 10 characters without a food keyword. -/
def isGeneralQuestion (m : String) (results : List RRow) : Bool :=
  results.isEmpty &&
    (greetSet.contains (lowerS (jsTrim m)) ||
      (decide ((jsTrim m).length < 10) && !containsFoodWord m))

/-! ## Context building and prompts (route lines 327-383) -/

/-- The case-insensitive trimmed title key used for deduplication (route
line 334). -/
def titleKey (r : RRow) : String := jsTrim (lowerS r.recipe.title)

/-- Scanner for `dedupByTitle`, carrying the set of titles seen so far.
A row whose key is empty (null or blank title) is dropped, like every
falsy `titleLower` in the route. -/
def dedupGo (seen : List String) : List RRow → List RRow
  | [] => []
  | r :: t =>
    if titleKey r = "" || seen.contains (titleKey r) then dedupGo seen t
    else r :: dedupGo (titleKey r :: seen) t

/-- Model of the `uniqueResults` filter (route lines 332-340). -/
def dedupByTitle (rs : List RRow) : List RRow := dedupGo [] rs

/-- Model of `limitForAI` (route line 343). -/
def limitForAI (rc : Option Nat) (n : Nat) : Nat :=
  match rc with
  | some c => if c > 0 then min c n else min 3 n
  | none => min 3 n

/-- The deduplicated, count-limited candidates the context is built from
(route line 344). -/
def aiCandidates (m : String) (results : List RRow) : List RRow :=
  let uniq := dedupByTitle results
  uniq.take (limitForAI (parseRequestedCount m) uniq.length)

/-- One context block entry (route lines 350-359). -/
def contextEntry (r : RRow) : String :=
  let fi := formatInstructions r.recipe.instructions
  "\nRecipe: " ++ r.recipe.title ++
    "\nIngredients: " ++ (if r.recipe.ingredients = "" then "Not specified" else r.recipe.ingredients) ++
    "\nInstructions: " ++ sliceStr fi 400 ++ (if fi.length > 400 then "..." else "") ++
    "\nPrep Time: " ++ optNatText r.recipe.prepTime ++ " minutes" ++
    "\nCook Time: " ++ optNatText r.recipe.cookTime ++ " minutes" ++
    "\nTotal Time: " ++ optNatText r.recipe.totalTime ++ " minutes" ++
    "\nCuisine: " ++ (if r.recipe.cuisine = "" then "Not specified" else r.recipe.cuisine) ++
    "\n---\n"

/-- The textual context block (route lines 347-360). -/
def contextOf (rows : List RRow) : String := rows.foldl (fun acc r => acc ++ contextEntry r) ""

/-- The count instruction interpolated into the prompt (route line 363);
the JavaScript condition `requestedCount ?` is falsy for both `null` and
`0`. -/
def countInstructionText (rc : Option Nat) : String :=
  match rc with
  | some n =>
    if n != 0 then
      " The user specifically requested " ++ toString n ++ " recipe" ++
        (if n > 1 then "s" else "") ++ ", so focus on providing exactly that many."
    else ""
  | none => ""

/-- The generator prompt of the recipe path (route lines 365-383). -/
def recipePrompt (m : String) (rc : Option Nat) (context : String) : String :=
  "You are a professional chef AI assistant. Your job is to help users find recipes and answer cooking questions.\n\nCURRENT USER QUERY: \"" ++ m ++ "\"\n" ++
    countInstructionText rc ++
    "\n\nAVAILABLE RECIPES FROM DATABASE:\n" ++ context ++
    "\n\nINSTRUCTIONS:\n1. Answer the user" ++ apos ++ "s CURRENT query: \"" ++ m ++ "\"\n2. " ++
    (match rc with
     | some n =>
       if n != 0 then
         "Provide exactly " ++ toString n ++ " recipe" ++ (if n > 1 then "s" else "") ++
           " as requested"
       else "Recommend the best matching recipe(s) from the database above"
     | none => "Recommend the best matching recipe(s) from the database above") ++
    "\n3. Provide a clear, helpful response based ONLY on the current query\n4. Explain why the recipe(s) fit the user" ++ apos ++ "s needs\n5. Provide clear step-by-step instructions when relevant\n6. Use ONLY plain text - NO markdown, NO asterisks, NO special formatting\n7. Write naturally for both reading and text-to-speech\n8. DO NOT reference previous conversations or history - treat each query as fresh\n\nNow provide your response:"

/-- The generator prompt of the general (small-talk) path (route lines
279-289). -/
def generalPrompt (m : String) : String :=
  "You are a friendly and helpful AI chef assistant. You can help with cooking questions, recipe suggestions, and general conversation.\n\nCURRENT USER MESSAGE: " ++ m ++
    "\n\nProvide a friendly, helpful response that:\n- If the user is greeting you, greet them back warmly\n- If they" ++ apos ++ "re asking for help, offer assistance\n- Keep responses concise and natural\n- Use ONLY plain text - NO markdown formatting\n\nYour response:"

/-! ## Response shape, environment and call trace -/

/-- One element of the `sources` array of a success response (route lines
483-488). -/
structure SourceEntry where
  title : String
  prepTime : Option Nat
  cookTime : Option Nat
  distance : Rat
deriving DecidableEq

/-- The JSON body and HTTP status of a response of the route; absent JSON
fields are `none`. -/
structure Resp where
  status : Nat := 200
  reply : Option String := none
  error : Option String := none
  sources : Option (List SourceEntry) := none
  llmUnavailable : Option Bool := none
  modelAvailable : Option Bool := none
deriving DecidableEq

/-- The outbound calls the handler makes, in order.  The two corpus count
queries the handler always issues first are not retrieval queries and are
not traced. -/
inductive Call where
  | embed (text : String)
  | vectorSearch
  | textSearch
  | probe
  | generate (prompt : String)
deriving DecidableEq

/-- The external world of one request: corpus counts, the behaviour of the
embedding provider, the vector query, the store, the generator probe and
the generator.  A `none` outcome models the corresponding call throwing. -/
structure Env where
  recipeCount : Nat
  embeddingCount : Nat
  modelAvailable : Bool
  embedResult : Option (List Rat)
  vectorResult : Option (List RRow)
  db : List Recipe
  lexOk : Bool
  ollamaAvailable : Bool
  genText : String → Option String
  randIdx : Nat

/-- The 500 response of a failing text search (route lines 260-262). -/
def lexFailResp : Resp :=
  { status := 500,
    reply := some "I encountered an error searching for recipes. The database might not be properly configured. Please check:\n1. Database connection is working\n2. Recipes are loaded" }

/-- The lexical retrieval stage (route lines 182-264): text search when
usable terms exist, the id-ordered sample otherwise, a 500 response when
the store query throws. -/
def lexicalRows (m : String) (env : Env) : Except Resp (List RRow) × List Call :=
  if env.lexOk then
    if (searchTermsOf m).isEmpty then (.ok (sampleRows env.db), [.textSearch])
    else (.ok (textSearchRows m env.db), [.textSearch])
  else (.error lexFailResp, [.textSearch])

/-- The whole retrieval stage (route lines 142-264).  The embedding
provider is always called first (an embedding count of 0 only produces a
log line); the vector query runs when the embedding succeeded, and the
lexical path runs when the embedding failed, the vector query threw, or
the vector query returned no rows. -/
def retrieveRows (m : String) (env : Env) : Except Resp (List RRow) × List Call :=
  match env.embedResult with
  | none =>
    let lex := lexicalRows m env
    (lex.1, Call.embed m :: lex.2)
  | some _ =>
    match env.vectorResult with
    | some rs =>
      if rs.isEmpty then
        let lex := lexicalRows m env
        (lex.1, Call.embed m :: Call.vectorSearch :: lex.2)
      else (.ok rs, [Call.embed m, Call.vectorSearch])
    | none =>
      let lex := lexicalRows m env
      (lex.1, Call.embed m :: Call.vectorSearch :: lex.2)

/-! ## Answer synthesis (route lines 276-489) -/

/-- The canned small-talk responses (route lines 304-313). -/
def cannedMap : List (String × String) :=
  [("hi", "Hello! I" ++ apos ++ "m your AI chef assistant. How can I help you with recipes today?"),
   ("hello", "Hi! I" ++ apos ++ "m here to help you find recipes and answer cooking questions. What would you like to know?"),
   ("how are you", "I" ++ apos ++ "m doing great, thank you for asking! I" ++ apos ++ "m ready to help you with recipes and cooking tips. What can I help you with?"),
   ("thanks", "You" ++ apos ++ "re welcome! Feel free to ask if you need any more recipe suggestions."),
   ("thank you", "You" ++ apos ++ "re very welcome! Happy cooking!"),
   ("bye", "Goodbye! Happy cooking!"),
   ("goodbye", "See you later! Enjoy your cooking!"),
   ("help", "I" ++ apos ++ "m your AI chef assistant! I can help you:\n- Find recipes by ingredients\n- Suggest dishes based on what you have\n- Answer cooking questions\n\nJust ask me anything about recipes or cooking!")]

/-- The random greeting openers (route line 303). -/
def greetingsList : List String := ["Hello!", "Hi there!", "Hey!", "Greetings!"]

/-- The canned reply of the general path when the generator is unavailable
(route lines 303-316); `randIdx` models `Math.random`. -/
def cannedReply (m : String) (randIdx : Nat) : String :=
  match cannedMap.find? (fun p => p.1 == lowerS (jsTrim m)) with
  | some p => p.2
  | none =>
    (greetingsList.getD (randIdx % 4) "") ++
      " I" ++ apos ++ "m your AI chef assistant. How can I help you with recipes?"

/-- The general (small-talk) answer stage (route lines 276-319). -/
def generalAnswer (m : String) (env : Env) : Resp × List Call :=
  if env.ollamaAvailable then
    match env.genText (generalPrompt m) with
    | some r => ({ reply := some r }, [.probe, .generate (generalPrompt m)])
    | none =>
      ({ reply := some (cannedReply m env.randIdx) }, [.probe, .generate (generalPrompt m)])
  else ({ reply := some (cannedReply m env.randIdx) }, [.probe])

/-- The no-results reply (route lines 321-325). -/
def noResultsReply (m : String) : String :=
  "I couldn" ++ apos ++ "t find any recipes matching \"" ++ m ++
    "\". Try:\n- Being more specific (e.g., \"chicken pasta\" instead of \"food\")\n- Using ingredient names (e.g., \"tomatoes\", \"pasta\", \"chicken\")\n- Asking for recipe types (e.g., \"dessert\", \"breakfast\", \"italian\")"

/-- A source entry of the final response (route lines 483-488). -/
def toSource (r : RRow) : SourceEntry :=
  ⟨r.recipe.title, r.recipe.prepTime, r.recipe.cookTime, r.distance⟩

/-- The recipe-answering stage (route lines 327-489).  When the probe
fails or the generator throws, the reply comes from
`generateIntelligentFallbackResponse`; that function is total, so the
inner basic-listing branch of the route (lines 406-478, the only place
that sets `llmUnavailable`) is unreachable and the response is the common
return of lines 481-489, whose `sources` are built from the raw `results`
list. -/
def recipeAnswer (m : String) (env : Env) (results : List RRow) : Resp × List Call :=
  let rc := parseRequestedCount m
  let uniq := dedupByTitle results
  let prompt := recipePrompt m rc (contextOf (aiCandidates m results))
  let srcs := results.map toSource
  if env.ollamaAvailable then
    match env.genText prompt with
    | some r => ({ reply := some r, sources := some srcs }, [.probe, .generate prompt])
    | none =>
      ({ reply := some (generateIntelligentFallbackResponse m uniq rc),
         sources := some srcs }, [.probe, .generate prompt])
  else
    ({ reply := some (generateIntelligentFallbackResponse m uniq rc),
       sources := some srcs }, [.probe])

/-- Dispatch between the small-talk, no-results and recipe paths (route
lines 270-489). -/
def answerStage (m : String) (env : Env) (results : List RRow) : Resp × List Call :=
  if isGeneralQuestion m results then generalAnswer m env
  else if results.isEmpty then ({ reply := some (noResultsReply m) }, [])
  else recipeAnswer m env results

/-- The fixed reply returned when the corpus holds no recipes (route lines
131-135). -/
def noRecipesReply : String :=
  "I don" ++ apos ++ "t have any recipes in my database yet. Please run the load script to import recipes first:\n\n```bash\nnpm run load\n```\n\nOr if you" ++ apos ++ "re using the TypeScript script:\n```bash\nnpx ts-node scripts/load.ts\n```"

/-- Model of the `POST` handler (route lines 104-489) on a request body
whose `message` is `none` (absent) or a string; the sentinel probe, the
readiness gate, retrieval and answer synthesis in order, together with the
trace of outbound calls. -/
def POST (msg : Option String) (env : Env) : Resp × List Call :=
  match msg with
  | none => ({ status := 400, error := some "Message required" }, [])
  | some m =>
    if m = "" then ({ status := 400, error := some "Message required" }, [])
    else if m = "__check_model__" then
      ({ modelAvailable := some env.modelAvailable,
         reply := some (if env.modelAvailable then "Model ready" else "Model not found") }, [])
    else if env.recipeCount = 0 then ({ reply := some noRecipesReply }, [])
    else
      match retrieveRows m env with
      | (.error resp, tr) => (resp, tr)
      | (.ok rs, tr) =>
        let ans := answerStage m env rs
        (ans.1, tr ++ ans.2)

/-! ## The Hugging Face embedding client
(`lib/embedding-model.ts`, `generateEmbeddingWithHuggingFace`)

The client walks a fixed list of three models.  For each model it issues
one fetch; on HTTP 503 it waits a fixed 5000 ms and retries that one model
once; on 410 or a 5xx it records the error and moves to the next model;
any other non-ok status raises an exception that the surrounding catch also
turns into "record and move to the next model".  When every model has
failed it throws a combined error.  The environment gives the response of
attempt `a` (0 = first, 1 = the 503 retry) against model index `i`; the
trace records fetches and waits. -/

/-- An HTTP response of the Hugging Face inference API as the client reads
it: `bodyValid` is whether the parsed body is a non-empty embedding
array. -/
structure HfResp where
  ok : Bool
  status : Nat
  statusText : String
  bodyValid : Bool
  body : List Rat
deriving DecidableEq

/-- The network behaviour seen by the embedding client: response of
attempt `a` against model index `i`. -/
structure HfEnv where
  resp : Nat → Nat → HfResp

/-- Events of the embedding client: a fetch against a model, or a timed
wait in milliseconds. -/
inductive HfEv where
  | fetch (model : String)
  | wait (ms : Nat)
deriving DecidableEq

/-- The fixed model list (`HUGGINGFACE_MODELS`). -/
def hfModels : List String :=
  ["sentence-transformers/all-MiniLM-L6-v2",
   "sentence-transformers/all-mpnet-base-v2",
   "sentence-transformers/paraphrase-MiniLM-L6-v2"]

/-- One model attempt of `generateEmbeddingWithHuggingFace` (lines
188-266): the single 503 retry happens after a fixed 5000 ms wait; a 410
or 5xx moves on; any other non-ok status raises, which the enclosing catch
also turns into moving on. -/
def hfTryModel (henv : HfEnv) (i : Nat) (model : String) :
    Except String (List Rat) × List HfEv :=
  if (henv.resp i 0).ok then
    if (henv.resp i 0).bodyValid then (.ok (henv.resp i 0).body, [.fetch model])
    else (.error "Invalid embedding format received", [.fetch model])
  else if (henv.resp i 0).status = 503 then
    if (henv.resp i 1).ok then
      (.ok (henv.resp i 1).body, [.fetch model, .wait 5000, .fetch model])
    else
      (.error ("Model " ++ model ++ " error: " ++ (henv.resp i 1).statusText),
        [.fetch model, .wait 5000, .fetch model])
  else if (henv.resp i 0).status = 410 || (henv.resp i 0).status ≥ 500 then
    (.error ("Model " ++ model ++ " unavailable: " ++ (henv.resp i 0).statusText),
      [.fetch model])
  else
    (.error ("Hugging Face API error: " ++ (henv.resp i 0).statusText), [.fetch model])

/-- The model loop of `generateEmbeddingWithHuggingFace`, carrying the last
error for the final combined message (lines 185-273). -/
def hfGo (henv : HfEnv) : Nat → List String → Option String →
    Except String (List Rat) × List HfEv
  | _, [], lastErr =>
    (.error ("All Hugging Face models failed. Last error: " ++
      lastErr.getD "Unknown error" ++
      ". Please ensure you have internet connectivity and Hugging Face API is accessible."), [])
  | i, mdl :: rest, _ =>
    match hfTryModel henv i mdl with
    | (.ok v, tr) => (.ok v, tr)
    | (.error e, tr) =>
      let next := hfGo henv (i + 1) rest (some e)
      (next.1, tr ++ next.2)

/-- Model of `generateEmbeddingWithHuggingFace`. -/
def generateEmbeddingWithHuggingFace (henv : HfEnv) :
    Except String (List Rat) × List HfEv :=
  hfGo henv 0 hfModels none

/-! ## The catch-all error classifier (route lines 490-564) -/

/-- A JavaScript error as the catch-all reads it: optional numeric
`status`, `message` and `name`. -/
structure JsError where
  status : Option Nat
  message : String
  name : String
deriving DecidableEq

/-- Model of the substring-pattern error classification of the catch-all
(route lines 497-563).  `error.message || String(error) || "Unknown
error"` is modelled as the message with `""` falling back to "Unknown
error". -/
def classifyError (e : JsError) : Resp :=
  let em := if e.message = "" then "Unknown error" else e.message
  if containsStr em ("Can" ++ apos ++ "t reach database server") ||
      containsStr em "Connection" || containsStr em "ECONNREFUSED" ||
      containsStr em "P1001" then
    { status := 500,
      reply := some "⚠️ Database connection error. Please check your DATABASE_URL environment variable and ensure your database is accessible." }
  else if containsStr em "relation" || containsStr em "does not exist" ||
      containsStr em "P2021" || containsStr em "P2001" then
    { status := 500,
      reply := some "⚠️ Database tables not found. Please run database migrations:\n\n```bash\nnpx prisma migrate deploy\n```\n\nOr if developing locally:\n```bash\nnpx prisma migrate dev\n```" }
  else if containsStr em "vector" || containsStr em "pgvector" ||
      containsStr em "operator does not exist" then
    { status := 500,
      reply := some "⚠️ Vector extension error. Please ensure pgvector extension is enabled in your PostgreSQL database:\n\n```sql\nCREATE EXTENSION IF NOT EXISTS vector;\n```" }
  else if containsStr em "Model not found" || containsStr em "trained model not found" ||
      containsStr em "inference.py" || containsStr em "Python" then
    { status := 500,
      reply := some "⚠️ Embedding model not available. The trained model files are required for generating embeddings. Please ensure the model is properly set up." }
  else if e.status == some 429 || containsStr em "429" ||
      containsStr em "rate limit" || containsStr em "Resource exhausted" then
    { status := 429,
      reply := some "⚠️ Rate limit reached. Please wait a moment and try again." }
  else if containsStr e.name "Prisma" || containsStr em "P" then
    { status := 500,
      reply := some ("⚠️ Database error: " ++ em ++ ". Please check your database connection and schema.") }
  else
    { status := 500, error := some em,
      reply := some ("Sorry, I encountered an error: " ++ em ++ ". Please try again or contact support if the issue persists.") }

/-! ## Concrete fixtures used by the claim theorems -/

/-- A fully populated recipe. -/
def rcpCurry : Recipe :=
  ⟨1, "Chicken Curry", "chicken, rice, curry paste", "cook the chicken", some 10,
    some 20, some 30, "Indian"⟩

/-- A recipe whose only occurrence of "chicken" is in the instructions. -/
def rcpMystery : Recipe :=
  ⟨2, "Mystery Dish", "water", "add the chicken and stir", none, none, none, ""⟩

def rowCurry : RRow := ⟨rcpCurry, 1 / 10⟩

/-- A second row whose title differs from `rowCurry` only by case. -/
def rowCurryUpper : RRow := ⟨⟨4, "CHICKEN CURRY", "chicken", "x", none, none, none, ""⟩, 1 / 5⟩

def rowStew : RRow := ⟨⟨3, "Beef Stew", "beef, carrots", "stew it", some 5, some 25, some 30, ""⟩, 1 / 4⟩

def rowSoup : RRow := ⟨⟨5, "Chicken Soup", "chicken, broth", "simmer", none, some 15, none, ""⟩, 1 / 3⟩

def rowPasta : RRow := ⟨⟨6, "Pasta", "pasta, tomatoes", "boil", none, none, none, "Italian"⟩, 2 / 5⟩

/-- Corpus state of the C1 counterexample: recipes exist, no embeddings
(hence the vector query over the empty table returns no rows), and the
embedding provider is reachable. -/
def envC1 : Env :=
  { recipeCount := 1, embeddingCount := 0, modelAvailable := false,
    embedResult := some [1], vectorResult := some [], db := [rcpCurry],
    lexOk := true, ollamaAvailable := false, genText := fun _ => none, randIdx := 0 }

/-- Environment of the C2 counterexample: retrieval succeeds lexically
with one candidate and the generator probe returns false. -/
def envC2 : Env :=
  { recipeCount := 1, embeddingCount := 1, modelAvailable := false,
    embedResult := none, vectorResult := none, db := [rcpCurry],
    lexOk := true, ollamaAvailable := false, genText := fun _ => none, randIdx := 0 }

/-- Environment of the C5 counterexample: an empty corpus. -/
def envC5 : Env :=
  { recipeCount := 0, embeddingCount := 0, modelAvailable := false,
    embedResult := none, vectorResult := none, db := [], lexOk := true,
    ollamaAvailable := false, genText := fun _ => none, randIdx := 0 }

/-- Environment of the C9 counterexample: the embedding provider throws
(as it does when every Hugging Face model is rate-limited) and retrieval
degrades to the lexical path. -/
def envRateLimited : Env :=
  { recipeCount := 1, embeddingCount := 1, modelAvailable := false,
    embedResult := none, vectorResult := none, db := [rcpCurry],
    lexOk := true, ollamaAvailable := false, genText := fun _ => none, randIdx := 0 }

/-- A candidate list with a case-insensitive duplicate title, used for C4. -/
def c4rows : List RRow := [rowCurry, rowCurryUpper, rowStew, rowSoup]

/-- Five vector-search rows with a case-insensitive duplicate title, used
for C10. -/
def c10rows : List RRow := [rowCurry, rowStew, rowCurryUpper, rowSoup, rowPasta]

/-- The C10 message requesting two recipes. -/
def c10msg : String := "give me 2 recipes with chicken"

/-- Environment of the C10 run: the vector path returns `c10rows` and the
generator is available. -/
def envC10 : Env :=
  { recipeCount := 5, embeddingCount := 5, modelAvailable := true,
    embedResult := some [1, 2], vectorResult := some c10rows, db := [],
    lexOk := true, ollamaAvailable := true, genText := fun _ => some "LLM answer",
    randIdx := 0 }

/-- A Hugging Face environment in which every fetch is rate-limited. -/
def hfEnv429 : HfEnv := ⟨fun _ _ => ⟨false, 429, "Too Many Requests", false, []⟩⟩

/-- A Hugging Face environment in which the first fetch of every model
answers 503 and the retry succeeds. -/
def hfEnv503 : HfEnv :=
  ⟨fun _ a => if a = 0 then ⟨false, 503, "Service Unavailable", false, []⟩
    else ⟨true, 200, "OK", true, [1, 2]⟩⟩

/-! ## Helper lemmas -/

theorem data_append (s t : String) : (s ++ t).data = s.data ++ t.data := rfl

theorem exists_mem_dropWhile (p : Char → Bool) :
    ∀ l : List Char, (∃ c ∈ l, p c = false) → ∃ c ∈ l.dropWhile p, p c = false := by
  intro l h
  induction l with
  | nil => simp at h
  | cons a t ih =>
    cases hp : p a with
    | false => exact ⟨a, by simp [List.dropWhile_cons, hp], hp⟩
    | true =>
      obtain ⟨c, hc, hpc⟩ := h
      rcases List.mem_cons.1 hc with rfl | hct
      · rw [hp] at hpc; cases hpc
      · simpa [List.dropWhile_cons, hp] using ih ⟨c, hct, hpc⟩

theorem trimL_ne_nil {l : List Char} {c : Char} (hc : c ∈ l) (hw : isWsChar c = false) :
    trimL l ≠ [] := by
  unfold trimL
  obtain ⟨d, hd, hdw⟩ := exists_mem_dropWhile isWsChar l ⟨c, hc, hw⟩
  obtain ⟨e, he, _⟩ :=
    exists_mem_dropWhile isWsChar (l.dropWhile isWsChar).reverse ⟨d, by simpa using hd, hdw⟩
  intro hnil
  rw [List.reverse_eq_nil_iff] at hnil
  rw [hnil] at he
  exact absurd he (List.not_mem_nil e)

theorem jsTrim_ne_empty {s : String} {c : Char} (hc : c ∈ s.data) (hw : isWsChar c = false) :
    jsTrim s ≠ "" := by
  unfold jsTrim
  intro h
  exact trimL_ne_nil hc hw (by simpa [String.ext_iff] using h)

/-- The trace of the lexical stage is always exactly one text-search
query. -/
theorem lexicalRows_calls (m : String) (env : Env) :
    (lexicalRows m env).2 = [Call.textSearch] := by
  unfold lexicalRows
  split <;> first | rfl | (split <;> rfl)

/-! ## Claim C8 -/

/-- Claim C8, counterexample.  The 400 response for a missing message is
`\x7b error: "Message required" \x7d`: contrary to the claim, its body
carries no user-facing `reply` string at all (only `error`). -/
theorem c8_counterexample :
    (POST none envC5).1.status = 400 ∧
    (POST none envC5).1.reply = none ∧
    (POST none envC5).1.error = some "Message required" := by
  exact ⟨rfl, rfl, rfl⟩

/-- Claim C8, amended.  A request whose body lacks a message is rejected
before any outbound call (the trace is empty) with HTTP 400 and the JSON
body `\x7b error: "Message required" \x7d`, which contains no `reply`
field. -/
theorem c8_theorem (env : Env) :
    POST none env = ({ status := 400, error := some "Message required" }, []) := rfl

/-! ## Claim C5 -/

/-- Claim C5, counterexample.  The sentinel message `__check_model__` is
handled while the recipe count is 0, yet the handler answers the readiness
probe instead of the fixed "no recipes loaded" reply, so the claim as
stated (over every handled message) fails. -/
theorem c5_counterexample :
    envC5.recipeCount = 0 ∧
    (POST (some "__check_model__") envC5).1.reply = some "Model not found" ∧
    (POST (some "__check_model__") envC5).1.reply ≠ some noRecipesReply := by
  refine ⟨rfl, rfl, ?_⟩
  decide

/-- Claim C5, amended.  For every message that passes validation (is
non-empty) and is not the readiness sentinel `__check_model__`, when the
recipe count is 0 the handler short-circuits with the fixed instructional
reply and makes no embedding, retrieval or generator call (the trace is
empty; the two count queries it consulted first are not retrieval
queries). -/
theorem c5_theorem (m : String) (env : Env) (h1 : m ≠ "") (h2 : m ≠ "__check_model__")
    (h0 : env.recipeCount = 0) :
    POST (some m) env = ({ reply := some noRecipesReply }, []) := by
  simp [POST, h1, h2, h0]

/-- Claim C5, witness. -/
theorem c5_witness :
    POST (some "chicken soup") envC5 = ({ reply := some noRecipesReply }, []) :=
  c5_theorem "chicken soup" envC5 (by decide) (by decide) rfl

/-! ## Claim C1 -/

/-- Claim C1, counterexample.  With an embedding count of 0, a positive
recipe count and a reachable embedding provider, the handler still calls
the embedding provider and still issues the vector query (the route only
logs the zero embedding count, route lines 137-140 and 148-173), contrary
to the claim that the semantic path is skipped. -/
theorem c1_counterexample :
    envC1.embeddingCount = 0 ∧ 0 < envC1.recipeCount ∧
    Call.embed "chicken" ∈ (POST (some "chicken") envC1).2 ∧
    Call.vectorSearch ∈ (POST (some "chicken") envC1).2 := by
  refine ⟨rfl, by decide, ?_, ?_⟩ <;> decide

/-- Claim C1, amended.  When the embedding count is 0 and recipes exist,
the embedding provider may still be called and the vector query may still
be issued, but the vector query over the empty embeddings table yields no
rows (or throws) — the hypothesis on `vectorResult` states exactly this
store consistency — so the candidates the pipeline works with are always
the ones produced by the lexical fallback path, and a text search is
traced. -/
theorem c1_theorem (m : String) (env : Env) (_h0 : env.embeddingCount = 0)
    (_hr : 0 < env.recipeCount)
    (hv : env.vectorResult = none ∨ env.vectorResult = some []) :
    (retrieveRows m env).1 = (lexicalRows m env).1 ∧
    Call.textSearch ∈ (retrieveRows m env).2 := by
  have hlex := lexicalRows_calls m env
  rcases hv with hv | hv <;> cases he : env.embedResult <;>
    simp [retrieveRows, he, hv, hlex]

/-- Claim C1, witness. -/
theorem c1_witness :
    (retrieveRows "chicken" envC1).1 = (lexicalRows "chicken" envC1).1 ∧
    Call.textSearch ∈ (retrieveRows "chicken" envC1).2 :=
  c1_theorem "chicken" envC1 rfl (by decide) (Or.inr rfl)

/-! ## Claim C2 -/

/-- Claim C2, counterexample.  With one lexical candidate and the
generator probe returning false, the reply is the template fallback but
the response body does not contain `llmUnavailable` at all (the route
returns through the common return of lines 481-489, which never sets it;
the only branch that sets `llmUnavailable` is the unreachable inner catch
of lines 406-478). -/
theorem c2_counterexample :
    envC2.ollamaAvailable = false ∧
    ((POST (some "chicken") envC2).1.sources.getD []).map (fun s => s.title) =
      ["Chicken Curry"] ∧
    (POST (some "chicken") envC2).1.reply =
      some (generateIntelligentFallbackResponse "chicken" (dedupByTitle (textSearchRows "chicken" envC2.db)) none) ∧
    (POST (some "chicken") envC2).1.llmUnavailable = none := by
  refine ⟨rfl, by decide, by decide, rfl⟩

/-- Claim C2, amended.  For every request that reaches the recipe path
with a non-empty candidate list, when the generator availability probe
returns false the final reply is produced by
`generateIntelligentFallbackResponse` on the deduplicated candidates, but
the JSON response does not contain the field `llmUnavailable` (its
`sources` are present and built from the raw candidate list). -/
theorem c2_theorem (m : String) (env : Env) (rs : List RRow) (tr : List Call)
    (h1 : m ≠ "") (h2 : m ≠ "__check_model__") (h3 : env.recipeCount ≠ 0)
    (hret : retrieveRows m env = (.ok rs, tr)) (hrs : rs ≠ [])
    (hol : env.ollamaAvailable = false) :
    (POST (some m) env).1.reply =
      some (generateIntelligentFallbackResponse m (dedupByTitle rs) (parseRequestedCount m)) ∧
    (POST (some m) env).1.llmUnavailable = none ∧
    (POST (some m) env).1.sources = some (rs.map toSource) := by
  have hempty : rs.isEmpty = false := by
    cases rs with
    | nil => exact absurd rfl hrs
    | cons a t => rfl
  simp [POST, h1, h2, h3, hret, answerStage, isGeneralQuestion, hempty,
    recipeAnswer, hol]

/-- Claim C2, witness. -/
theorem c2_witness :
    (POST (some "chicken") envC2).1.reply =
      some (generateIntelligentFallbackResponse "chicken"
        (dedupByTitle (textSearchRows "chicken" envC2.db)) (parseRequestedCount "chicken")) ∧
    (POST (some "chicken") envC2).1.llmUnavailable = none ∧
    (POST (some "chicken") envC2).1.sources =
      some ((textSearchRows "chicken" envC2.db).map toSource) :=
  c2_theorem "chicken" envC2 (textSearchRows "chicken" envC2.db)
    [Call.embed "chicken", Call.textSearch] (by decide) (by decide) (by decide)
    (by rfl) (by decide) rfl

/-! ## Claim C6 -/

/-- Claim C6, confirmed.  A message is classified as small talk exactly
when retrieval produced zero candidates and either its trimmed lowercase
form is in the fixed greeting set, or it is under 10 characters after
trimming and contains no word of the fixed cooking/food keyword set;
consequently every request with a non-empty retrieval result takes the
recipe-answering path. -/
theorem c6_theorem (m : String) (rs : List RRow) (env : Env) :
    (isGeneralQuestion m rs = true ↔
      (rs = [] ∧ (lowerS (jsTrim m) ∈ greetSet ∨
        ((jsTrim m).length < 10 ∧ containsFoodWord m = false)))) ∧
    (rs ≠ [] → isGeneralQuestion m rs = false) ∧
    (rs ≠ [] → answerStage m env rs = recipeAnswer m env rs) := by
  have hiff : isGeneralQuestion m rs = true ↔
      (rs = [] ∧ (lowerS (jsTrim m) ∈ greetSet ∨
        ((jsTrim m).length < 10 ∧ containsFoodWord m = false))) := by
    simp [isGeneralQuestion, List.isEmpty_iff, and_congr_right_iff]
  refine ⟨hiff, fun h => ?_, fun h => ?_⟩
  · rcases hg : isGeneralQuestion m rs with _ | _
    · rfl
    · exact absurd (hiff.1 hg).1 h
  · have hg : isGeneralQuestion m rs = false := by
      rcases hg : isGeneralQuestion m rs with _ | _
      · rfl
      · exact absurd (hiff.1 hg).1 h
    have he : rs.isEmpty = false := List.isEmpty_eq_false.2 h
    simp [answerStage, hg, he]

/-- Claim C6, witness: a candidate-bearing request is not small talk even
for a greeting-like message, and "hello" with no candidates is. -/
theorem c6_witness :
    (isGeneralQuestion "hi" [rowCurry] = true ↔
      ([rowCurry] = [] ∧ (lowerS (jsTrim "hi") ∈ greetSet ∨
        ((jsTrim "hi").length < 10 ∧ containsFoodWord "hi" = false)))) ∧
    ([rowCurry] ≠ [] → isGeneralQuestion "hi" [rowCurry] = false) ∧
    ([rowCurry] ≠ [] →
      answerStage "hi" envC2 [rowCurry] = recipeAnswer "hi" envC2 [rowCurry]) :=
  c6_theorem "hi" [rowCurry] envC2

/-! ## Claim C7 -/

/-- A string with a member character is not empty. -/
theorem str_ne_empty {s : String} {c : Char} (hc : c ∈ s.data) : s ≠ "" := by
  intro h
  rw [h] at hc
  exact List.not_mem_nil c hc

/-- Every branch of the intent if-chain opens the fallback reply with a
non-whitespace character. -/
theorem fallbackBase_has_char (m : String) (fr : List RRow) (f : RRow) :
    ∃ c ∈ (fallbackBase m fr f).data, isWsChar c = false := by
  unfold fallbackBase
  split
  · refine ⟨'H', ?_, by decide⟩
    have hm : 'H' ∈ ("Here are the ingredients for ").data := by decide
    simp only [data_append, List.mem_append]
    tauto
  · split
    · refine ⟨'k', ?_, by decide⟩
      have hm : 'k' ∈ (" takes approximately ").data := by decide
      simp only [data_append, List.mem_append]
      tauto
    · split
      · refine ⟨'H', ?_, by decide⟩
        have hm : 'H' ∈ ("Here").data := by decide
        simp only [data_append, List.mem_append]
        tauto
      · refine ⟨'f', ?_, by decide⟩
        have hm : 'f' ∈ (" for you:\n\n").data := by decide
        simp only [data_append, List.mem_append]
        tauto

/-- Claim C7, confirmed.  For every message and every non-empty candidate
list, the template fallback is a total function (it cannot throw) and
returns a non-empty reply string. -/
theorem c7_theorem (m : String) (rs : List RRow) (rc : Option Nat) (_h : rs ≠ []) :
    generateIntelligentFallbackResponse m rs rc ≠ "" := by
  unfold generateIntelligentFallbackResponse
  cases hfr : rs.take (fallbackLimit rc rs.length) with
  | nil =>
    show ("I couldn" ++ apos ++ "t find any recipes matching \"" ++ m ++
      "\". Try being more specific or using ingredient names.") ≠ ""
    refine str_ne_empty (c := 'I') ?_
    have hm : 'I' ∈ ("I couldn").data := by decide
    simp only [data_append, List.mem_append]
    tauto
  | cons f rest =>
    show jsTrim (fallbackBase m (f :: rest) f ++
      fallbackDetails (intentIngredients (lowerS m))
        (intentInstructions (lowerS m)) (f :: rest)) ≠ ""
    obtain ⟨c, hc, hw⟩ := fallbackBase_has_char m (f :: rest) f
    refine jsTrim_ne_empty ?_ hw
    rw [data_append]
    exact List.mem_append_left _ hc

/-- Claim C7, witness. -/
theorem c7_witness :
    generateIntelligentFallbackResponse "chicken" [rowCurry] none ≠ "" :=
  c7_theorem "chicken" [rowCurry] none (by decide)

/-! ## Claim C4 -/

/-- The deduplicated list is a sublist of the input: rank order is
preserved and nothing is invented. -/
theorem dedupGo_sublist (l : List RRow) : ∀ seen, (dedupGo seen l).Sublist l := by
  induction l with
  | nil => intro seen; simp [dedupGo]
  | cons r t ih =>
    intro seen
    unfold dedupGo
    split
    · exact (ih seen).cons r
    · exact (ih (titleKey r :: seen)).cons₂ r

/-- Every kept row has a non-empty key that was not previously seen. -/
theorem dedupGo_mem_key (l : List RRow) :
    ∀ seen, ∀ r ∈ dedupGo seen l, seen.contains (titleKey r) = false ∧ titleKey r ≠ "" := by
  induction l with
  | nil => intro seen r hr; simp [dedupGo] at hr
  | cons a t ih =>
    intro seen r hr
    unfold dedupGo at hr
    by_cases h0 : (titleKey a = "" || seen.contains (titleKey a)) = true
    · rw [if_pos h0] at hr
      exact ih seen r hr
    · rw [if_neg h0] at hr
      simp only [Bool.or_eq_true, decide_eq_true_iff, not_or] at h0
      rcases List.mem_cons.1 hr with rfl | hrt
      · exact ⟨by simpa using h0.2, h0.1⟩
      · have := ih (titleKey a :: seen) r hrt
        refine ⟨?_, this.2⟩
        have hc := this.1
        rw [List.contains_cons] at hc
        simpa using (Bool.or_eq_false_iff.1 hc).2

/-- The kept keys are pairwise distinct. -/
theorem dedupGo_keys_nodup (l : List RRow) :
    ∀ seen, ((dedupGo seen l).map titleKey).Nodup := by
  induction l with
  | nil => intro seen; simp [dedupGo]
  | cons a t ih =>
    intro seen
    unfold dedupGo
    split
    · exact ih seen
    · simp only [List.map_cons, List.nodup_cons]
      refine ⟨?_, ih (titleKey a :: seen)⟩
      intro hmem
      obtain ⟨r, hr, hkey⟩ := List.mem_map.1 hmem
      have := (dedupGo_mem_key t (titleKey a :: seen) r hr).1
      rw [List.contains_cons, hkey] at this
      simp at this

/-- For every non-empty key, the first row of the deduplicated list with
that key is exactly the first row of the input with that key: the first
occurrence wins. -/
theorem dedupGo_find? (l : List RRow) :
    ∀ seen (k : String), k ≠ "" → seen.contains k = false →
      (dedupGo seen l).find? (fun x => titleKey x == k) =
        l.find? (fun x => titleKey x == k) := by
  induction l with
  | nil => intro seen k _ _; simp [dedupGo]
  | cons a t ih =>
    intro seen k hk hs
    unfold dedupGo
    by_cases h0 : (titleKey a = "" || seen.contains (titleKey a)) = true
    · rw [if_pos h0]
      have hne : (titleKey a == k) = false := by
        rw [beq_eq_false_iff_ne]
        simp only [Bool.or_eq_true, decide_eq_true_iff] at h0
        intro hck
        rcases h0 with h0 | h0
        · exact hk (by rw [← hck, h0])
        · rw [hck] at h0
          rw [hs] at h0
          cases h0
      rw [List.find?_cons, hne]
      exact ih seen k hk hs
    · rw [if_neg h0]
      rw [List.find?_cons, List.find?_cons]
      cases hak : (titleKey a == k) with
      | true => rfl
      | false =>
        refine ih (titleKey a :: seen) k hk ?_
        rw [List.contains_cons]
        simp only [Bool.or_eq_false_iff]
        refine ⟨?_, hs⟩
        rw [beq_eq_false_iff_ne] at hak ⊢
        exact fun h => hak h.symm

/-- Claim C4, confirmed.  The context builder deduplicates by
case-insensitive (lowercased, trimmed) title: the result is a sublist of
the candidates (rank order preserved), its keys are pairwise distinct, and
for every non-empty key the surviving row is the first candidate bearing
it; the context is then limited to `min(requestedCount, dedupedCount)`
rows when a positive count was parsed from the message and to
`min(3, dedupedCount)` by default; and the message "give me 2 recipes with
chicken" parses to a requested count of 2, so with at least 2 deduplicated
candidates the context holds exactly 2 entries. -/
theorem c4_theorem (rs : List RRow) (k : String) (m : String) (hk : k ≠ "") :
    (dedupByTitle rs).Sublist rs ∧
    ((dedupByTitle rs).map titleKey).Nodup ∧
    (dedupByTitle rs).find? (fun x => titleKey x == k) =
      rs.find? (fun x => titleKey x == k) ∧
    (aiCandidates m rs).length =
      limitForAI (parseRequestedCount m) (dedupByTitle rs).length ∧
    parseRequestedCount "give me 2 recipes with chicken" = some 2 := by
  refine ⟨dedupGo_sublist rs [], dedupGo_keys_nodup rs [],
    dedupGo_find? rs [] k hk rfl, ?_, by decide⟩
  have hle : limitForAI (parseRequestedCount m) (dedupByTitle rs).length ≤
      (dedupByTitle rs).length := by
    unfold limitForAI
    cases parseRequestedCount m with
    | none => exact Nat.min_le_right 3 _
    | some c =>
      cases Nat.decLt 0 c with
      | isTrue h => simp [h, Nat.min_le_right]
      | isFalse h => simp [h, Nat.min_le_right]
  simp [aiCandidates, List.length_take, Nat.min_eq_left hle]

/-- Claim C4, witness: a concrete list with a case-insensitive duplicate
title and the concrete two-recipe request. -/
theorem c4_witness :
    (dedupByTitle c4rows).Sublist c4rows ∧
    ((dedupByTitle c4rows).map titleKey).Nodup ∧
    (dedupByTitle c4rows).find? (fun x => titleKey x == "chicken curry") =
      c4rows.find? (fun x => titleKey x == "chicken curry") ∧
    (aiCandidates "give me 2 recipes with chicken" c4rows).length =
      limitForAI (parseRequestedCount "give me 2 recipes with chicken")
        (dedupByTitle c4rows).length ∧
    parseRequestedCount "give me 2 recipes with chicken" = some 2 :=
  c4_theorem c4rows "chicken curry" "give me 2 recipes with chicken" (by decide)

/-! ## Claim C3 -/

/-- Claim C3, counterexample.  `rcpMystery` matches the where clause for
the term "chicken" (the term occurs in its instructions), so it is a
candidate, yet its relevance score is 0: a term occurrence in the
instructions contributes nothing — not a "lowest but still positive"
weight as claimed (the scoring loop of route lines 234-237 only examines
ingredients and title). -/
theorem c3_counterexample :
    matchesWhere ["chicken"] none rcpMystery = true ∧
    containsStr (lowerS rcpMystery.instructions) "chicken" = true ∧
    containsStr (lowerS rcpMystery.ingredients) "chicken" = false ∧
    containsStr (lowerS rcpMystery.title) "chicken" = false ∧
    lexScore ["chicken"] rcpMystery = 0 := by
  decide

/-- The relevance score in closed form: 10 per term occurring in the
ingredients plus 5 per term occurring in the title. -/
theorem lexScore_closed (terms : List String) (r : Recipe) :
    lexScore terms r =
      10 * terms.countP (fun t => containsStr (lowerS r.ingredients) t) +
        5 * terms.countP (fun t => containsStr (lowerS r.title) t) := by
  suffices h : ∀ a : Nat,
      terms.foldl (fun s t =>
        let s1 := if containsStr (lowerS r.ingredients) t then s + 10 else s
        if containsStr (lowerS r.title) t then s1 + 5 else s1) a =
      a + 10 * terms.countP (fun t => containsStr (lowerS r.ingredients) t) +
        5 * terms.countP (fun t => containsStr (lowerS r.title) t) by
    simpa [lexScore] using h 0
  induction terms with
  | nil => intro a; simp
  | cons t ts ih =>
    intro a
    rw [List.foldl_cons, List.countP_cons, List.countP_cons, ih]
    cases h1 : containsStr (lowerS r.ingredients) t <;>
      cases h2 : containsStr (lowerS r.title) t <;> simp [h1, h2] <;> ring

/-- Claim C3, amended.  The lexical score of a candidate is a weighted sum
of term occurrences in which a match in the ingredients contributes 10, a
match in the title contributes 5, and a match in the instructions
contributes nothing (the score does not depend on the instructions at
all); the returned list is the first 5 of a stable descending sort of the
candidates by this score: it is sorted by descending score, has
`min 5 (number of candidates)` rows, draws every row from the candidate
list, and every candidate left out scores no more than every row
returned. -/
theorem c3_theorem (terms : List String) (r : Recipe) (x : String) (m : String)
    (db : List Recipe) :
    (lexScore terms r =
      10 * terms.countP (fun t => containsStr (lowerS r.ingredients) t) +
        5 * terms.countP (fun t => containsStr (lowerS r.title) t)) ∧
    lexScore terms { r with instructions := x } = lexScore terms r ∧
    List.Pairwise (fun a b =>
      lexScore (searchTermsOf m) b.recipe ≤ lexScore (searchTermsOf m) a.recipe)
      (textSearchRows m db) ∧
    (textSearchRows m db).length = min 5 (lexCandidates m db).length ∧
    (∀ row ∈ textSearchRows m db, row.recipe ∈ lexCandidates m db) ∧
    (∀ a ∈ rankedTop5 m db, ∀ b ∈ (rankedAll m db).drop 5,
      lexScore (searchTermsOf m) b ≤ lexScore (searchTermsOf m) a) := by
  have hinstr : lexScore terms { r with instructions := x } = lexScore terms r := by
    simp [lexScore]
  haveI htot : IsTotal Recipe (fun a b =>
      lexScore (searchTermsOf m) b ≤ lexScore (searchTermsOf m) a) :=
    ⟨fun a b => Nat.le_total _ _⟩
  haveI htrans : IsTrans Recipe (fun a b =>
      lexScore (searchTermsOf m) b ≤ lexScore (searchTermsOf m) a) :=
    ⟨fun _ _ _ h1 h2 => le_trans h2 h1⟩
  have hsorted : List.Pairwise (fun a b =>
      lexScore (searchTermsOf m) b ≤ lexScore (searchTermsOf m) a) (rankedAll m db) :=
    List.sorted_insertionSort _ (lexCandidates m db)
  have htop : List.Pairwise (fun a b =>
      lexScore (searchTermsOf m) b ≤ lexScore (searchTermsOf m) a) (rankedTop5 m db) :=
    hsorted.sublist (List.take_sublist 5 _)
  refine ⟨lexScore_closed terms r, hinstr, ?_, ?_, ?_, ?_⟩
  · exact htop.map _ (fun a b h => h)
  · have hlen : (rankedAll m db).length = (lexCandidates m db).length :=
      List.length_insertionSort _ _
    simp [textSearchRows, rankedTop5, List.length_take, hlen]
  · intro row hrow
    obtain ⟨a, ha, rfl⟩ := List.mem_map.1 hrow
    exact (List.perm_insertionSort _ (lexCandidates m db)).subset
      (List.take_subset 5 _ ha)
  · intro a ha b hb
    have := hsorted
    rw [← List.take_append_drop 5 (rankedAll m db)] at this
    exact (List.pairwise_append.1 this).2.2 a ha b hb

/-- Claim C3, witness. -/
theorem c3_witness :
    (lexScore ["chicken"] rcpCurry =
      10 * (["chicken"] : List String).countP
        (fun t => containsStr (lowerS rcpCurry.ingredients) t) +
        5 * (["chicken"] : List String).countP
          (fun t => containsStr (lowerS rcpCurry.title) t)) ∧
    lexScore ["chicken"] { rcpCurry with instructions := "stir" } =
      lexScore ["chicken"] rcpCurry ∧
    List.Pairwise (fun a b =>
      lexScore (searchTermsOf "chicken") b.recipe ≤
        lexScore (searchTermsOf "chicken") a.recipe)
      (textSearchRows "chicken" [rcpCurry, rcpMystery]) ∧
    (textSearchRows "chicken" [rcpCurry, rcpMystery]).length =
      min 5 (lexCandidates "chicken" [rcpCurry, rcpMystery]).length ∧
    (∀ row ∈ textSearchRows "chicken" [rcpCurry, rcpMystery],
      row.recipe ∈ lexCandidates "chicken" [rcpCurry, rcpMystery]) ∧
    (∀ a ∈ rankedTop5 "chicken" [rcpCurry, rcpMystery],
      ∀ b ∈ (rankedAll "chicken" [rcpCurry, rcpMystery]).drop 5,
        lexScore (searchTermsOf "chicken") b ≤ lexScore (searchTermsOf "chicken") a) :=
  c3_theorem ["chicken"] rcpCurry "stir" "chicken" [rcpCurry, rcpMystery]

/-! ## Claim C9 -/

/-- Every model attempt opens with a fetch against that model. -/
theorem hfTryModel_calls (henv : HfEnv) (i : Nat) (mdl : String) :
    ∃ rest, (hfTryModel henv i mdl).2 = HfEv.fetch mdl :: rest := by
  unfold hfTryModel
  repeat' split
  all_goals exact ⟨_, rfl⟩

/-- The trace of the model loop on a non-empty model list opens with a
fetch against the first model. -/
theorem hfGo_calls_head (henv : HfEnv) (i : Nat) (mdl : String) (rest : List String)
    (le : Option String) :
    ∃ tl, (hfGo henv i (mdl :: rest) le).2 = HfEv.fetch mdl :: tl := by
  obtain ⟨r, hr⟩ := hfTryModel_calls henv i mdl
  rcases h : hfTryModel henv i mdl with ⟨res, tr⟩
  rw [h] at hr
  simp only at hr
  unfold hfGo
  rw [h]
  cases res with
  | ok v => exact ⟨r, by simpa using hr⟩
  | error e => exact ⟨r ++ (hfGo henv (i + 1) rest (some e)).2, by simp [hr]⟩

/-- Claim C9, counterexample.  When every model answers HTTP 429, the
client issues exactly one fetch per model with no wait in between — the
rate-limited call is never retried and no backoff delay occurs — and the
route answers the request with HTTP 200 via the lexical fallback, not 429
(the embedding failure is caught at route line 153).  Conversely a 503, a
failure without a rate-limit signal, IS retried (one fixed 5000 ms wait,
same model fetched again), contradicting the claim that non-rate-limit
failures are not retried. -/
theorem c9_counterexample :
    (generateEmbeddingWithHuggingFace hfEnv429).2 =
      [HfEv.fetch "sentence-transformers/all-MiniLM-L6-v2",
       HfEv.fetch "sentence-transformers/all-mpnet-base-v2",
       HfEv.fetch "sentence-transformers/paraphrase-MiniLM-L6-v2"] ∧
    (generateEmbeddingWithHuggingFace hfEnv503).2 =
      [HfEv.fetch "sentence-transformers/all-MiniLM-L6-v2", HfEv.wait 5000,
       HfEv.fetch "sentence-transformers/all-MiniLM-L6-v2"] ∧
    (POST (some "chicken") envRateLimited).1.status = 200 := by
  refine ⟨by decide, by decide, rfl⟩

/-- Equation lemma: a failed model attempt prepends its trace and moves to
the next model. -/
theorem hfGo_cons_error (henv : HfEnv) (i : Nat) (mdl : String) (rest : List String)
    (le : Option String) (e : String) (tr : List HfEv)
    (h : hfTryModel henv i mdl = (.error e, tr)) :
    hfGo henv i (mdl :: rest) le =
      ((hfGo henv (i + 1) rest (some e)).1,
        tr ++ (hfGo henv (i + 1) rest (some e)).2) := by
  simp only [hfGo]
  rw [h]

/-- Equation lemma: a successful model attempt ends the loop. -/
theorem hfGo_cons_ok (henv : HfEnv) (i : Nat) (mdl : String) (rest : List String)
    (le : Option String) (v : List Rat) (tr : List HfEv)
    (h : hfTryModel henv i mdl = (.ok v, tr)) :
    hfGo henv i (mdl :: rest) le = (.ok v, tr) := by
  simp only [hfGo]
  rw [h]

/-- Claim C9, amended.  There is no exponential-backoff retry.  An
embedding fetch failing with HTTP 429 is not retried at all: the client
immediately moves to the next model (one fetch each, no wait).  The only
retry is a single, fixed 5000 ms wait-and-refetch of the same model on
HTTP 503 — a failure without a rate-limit signal.  Separately, the
catch-all of the route maps an error carrying a 429 status to an HTTP 429
response without retrying, but embedding failures are caught inside the
route and degrade to lexical search instead of reaching it. -/
theorem c9_theorem (henv henv2 : HfEnv)
    (h1 : (henv.resp 0 0).ok = false) (h2 : (henv.resp 0 0).status = 429)
    (h3 : (henv2.resp 0 0).ok = false) (h4 : (henv2.resp 0 0).status = 503) :
    (generateEmbeddingWithHuggingFace henv).2.take 2 =
      [HfEv.fetch "sentence-transformers/all-MiniLM-L6-v2",
       HfEv.fetch "sentence-transformers/all-mpnet-base-v2"] ∧
    (generateEmbeddingWithHuggingFace henv2).2.take 3 =
      [HfEv.fetch "sentence-transformers/all-MiniLM-L6-v2", HfEv.wait 5000,
       HfEv.fetch "sentence-transformers/all-MiniLM-L6-v2"] ∧
    (classifyError ⟨some 429, "Too Many Requests", "Error"⟩).status = 429 := by
  refine ⟨?_, ?_, by decide⟩
  · have ht : hfTryModel henv 0 "sentence-transformers/all-MiniLM-L6-v2" =
        (.error ("Hugging Face API error: " ++ (henv.resp 0 0).statusText),
         [.fetch "sentence-transformers/all-MiniLM-L6-v2"]) := by
      unfold hfTryModel
      rw [h1, h2]
      simp
    obtain ⟨tl, htl⟩ := hfGo_calls_head henv 1 "sentence-transformers/all-mpnet-base-v2"
      ["sentence-transformers/paraphrase-MiniLM-L6-v2"]
      (some ("Hugging Face API error: " ++ (henv.resp 0 0).statusText))
    show (hfGo henv 0 hfModels none).2.take 2 = _
    rw [show hfModels = "sentence-transformers/all-MiniLM-L6-v2" ::
      ["sentence-transformers/all-mpnet-base-v2",
       "sentence-transformers/paraphrase-MiniLM-L6-v2"] from rfl]
    rw [hfGo_cons_error henv 0 _ _ none _ _ ht]
    dsimp only
    rw [htl]
    rfl
  · have ht2 : (hfTryModel henv2 0 "sentence-transformers/all-MiniLM-L6-v2").2 =
        [.fetch "sentence-transformers/all-MiniLM-L6-v2", .wait 5000,
         .fetch "sentence-transformers/all-MiniLM-L6-v2"] := by
      unfold hfTryModel
      rw [h3, h4]
      simp only [Bool.false_eq_true, if_false, if_pos rfl]
      cases hio : (henv2.resp 0 1).ok <;> simp [hio]
    show (hfGo henv2 0 hfModels none).2.take 3 = _
    rw [show hfModels = "sentence-transformers/all-MiniLM-L6-v2" ::
      ["sentence-transformers/all-mpnet-base-v2",
       "sentence-transformers/paraphrase-MiniLM-L6-v2"] from rfl]
    rcases h : hfTryModel henv2 0 "sentence-transformers/all-MiniLM-L6-v2" with ⟨res, tr⟩
    rw [h] at ht2
    simp only at ht2
    cases res with
    | ok v =>
      rw [hfGo_cons_ok henv2 0 _ _ none v tr h]
      rw [ht2]
      rfl
    | error e =>
      rw [hfGo_cons_error henv2 0 _ _ none e tr h]
      dsimp only
      rw [ht2]
      rfl

/-- Claim C9, witness. -/
theorem c9_witness :
    (generateEmbeddingWithHuggingFace hfEnv429).2.take 2 =
      [HfEv.fetch "sentence-transformers/all-MiniLM-L6-v2",
       HfEv.fetch "sentence-transformers/all-mpnet-base-v2"] ∧
    (generateEmbeddingWithHuggingFace hfEnv503).2.take 3 =
      [HfEv.fetch "sentence-transformers/all-MiniLM-L6-v2", HfEv.wait 5000,
       HfEv.fetch "sentence-transformers/all-MiniLM-L6-v2"] ∧
    (classifyError ⟨some 429, "Too Many Requests", "Error"⟩).status = 429 :=
  c9_theorem hfEnv429 hfEnv503 rfl rfl rfl rfl

/-! ## Claim C10 -/

/-- Claim C10, confirmed (by a concrete run, as the claim quantifies
existentially).  The message requests 2 recipes; the vector path returns 5
rows two of which share a case-insensitive title; the reply is generated
from a prompt whose context holds only the 2 deduplicated, count-limited
candidates, yet the `sources` array of the response carries all 5 raw
rows, duplicate titles included. -/
theorem c10_theorem :
    parseRequestedCount c10msg = some 2 ∧
    ((POST (some c10msg) envC10).1.sources.getD []).length = 5 ∧
    ¬ (((POST (some c10msg) envC10).1.sources.getD []).map
        (fun s => lowerS s.title)).Nodup ∧
    (aiCandidates c10msg c10rows).length = 2 ∧
    (POST (some c10msg) envC10).2 =
      [Call.embed c10msg, Call.vectorSearch, Call.probe,
       Call.generate (recipePrompt c10msg (parseRequestedCount c10msg)
         (contextOf (aiCandidates c10msg c10rows)))] ∧
    (POST (some c10msg) envC10).1.reply = some "LLM answer" := by
  refine ⟨by decide, rfl, by decide, by decide, rfl, rfl⟩

end ChefBot
